import Mathlib

/-!
Verification of the Human Behavior Simulation Engine
(temporal_entropy.py, reading_mimicry.py, kinematic_mouse.py,
infiltrator_complete.py).

Python floats are modelled as exact rationals (`ℚ`) where the code uses only
field operations and comparisons, and as real numbers (`ℝ`) where the code
uses `math.sqrt` or `math.log2`.  Every call to the random source is made
explicit: `random.gauss(mu, sigma)` is modelled as `mu + sigma * z` with `z`
the standard-normal draw passed as an argument, and `random.uniform(a, b)` /
`random.random()` draws are passed as arguments (theorems quantify over them,
with range hypotheses where a claim needs them).
-/

/-- Python `int(q)` on a rational: truncation toward zero. -/
def pyInt (q : ℚ) : ℤ :=
  if 0 ≤ q then ⌊q⌋ else ⌈q⌉

/- ---------------------------------------------------------------------
temporal_entropy.py
--------------------------------------------------------------------- -/

/-- `ActivityType` enumeration from temporal_entropy.py. -/
inductive ActivityType where
  | READING_WORD
  | READING_SENTENCE
  | READING_PARAGRAPH
  | THINKING
  | TYPING_CHAR
  | TYPING_WORD
  | MOUSE_MOVE
  | CLICK_DELAY
  | PAGE_LOAD
  | FORM_FILL
  | DECISION
  | SCROLL_PAUSE
deriving DecidableEq

/-- `TimingProfile` dataclass: statistical profile for a timing activity. -/
structure TimingProfile where
  mean : ℚ
  std_dev : ℚ
  min_value : ℚ
  max_value : ℚ

namespace TemporalEntropy

/-- The `TemporalEntropy.PROFILES` dictionary (one entry per `ActivityType`). -/
def PROFILES : ActivityType → TimingProfile
  | .READING_WORD => ⟨0.24, 0.08, 0.10, 0.50⟩
  | .READING_SENTENCE => ⟨2.5, 0.8, 1.0, 5.0⟩
  | .READING_PARAGRAPH => ⟨8.0, 2.5, 3.0, 15.0⟩
  | .THINKING => ⟨1.5, 0.5, 0.5, 3.0⟩
  | .DECISION => ⟨2.5, 1.0, 0.8, 5.0⟩
  | .TYPING_CHAR => ⟨0.15, 0.05, 0.08, 0.30⟩
  | .TYPING_WORD => ⟨0.75, 0.25, 0.30, 1.50⟩
  | .MOUSE_MOVE => ⟨0.50, 0.15, 0.20, 1.00⟩
  | .CLICK_DELAY => ⟨0.15, 0.05, 0.05, 0.40⟩
  | .PAGE_LOAD => ⟨2.0, 0.5, 1.0, 4.0⟩
  | .FORM_FILL => ⟨1.5, 0.5, 0.5, 3.0⟩
  | .SCROLL_PAUSE => ⟨1.2, 0.4, 0.3, 2.5⟩

/-- Model of `random.gauss(mean, std_dev)`: the draw is `mean + std_dev * z`
where `z` is the (arbitrary) standard-normal deviate. -/
def gauss (mean std_dev z : ℚ) : ℚ :=
  mean + std_dev * z

/-- `TemporalEntropy.generate_delay`: draw from the Gaussian with scaled mean
and variance, then clamp to the profile's `[min_value, max_value]` bounds.
`z` is the standard-normal draw consumed by `random.gauss`. -/
def generate_delay (z : ℚ) (activity : ActivityType)
    (multiplier randomness_factor : ℚ) : ℚ :=
  let profile := PROFILES activity
  let delay := gauss (profile.mean * multiplier)
    (profile.std_dev * randomness_factor) z
  max profile.min_value (min profile.max_value delay)

end TemporalEntropy

/-- `TimingBudget` object state: `{total_budget, remaining_budget,
actions_taken}`. -/
structure TimingBudget where
  total_budget : ℚ
  remaining_budget : ℚ
  actions_taken : ℕ

namespace TimingBudget

/-- `TimingBudget.__init__(total_budget_seconds)`. -/
def init (total_budget_seconds : ℚ) : TimingBudget :=
  ⟨total_budget_seconds, total_budget_seconds, 0⟩

/-- The `for _ in range(count)` loop of `TimingBudget.allocate`: one
`generate_delay(activity, multiplier=scale)` per iteration (so the
`randomness_factor` keeps its default `1.0`), the delay appended and
subtracted from `remaining_budget`, `actions_taken` incremented.  `zs` is the
list of Gaussian draws the loop consumes. -/
def allocateLoop (activity : ActivityType) (scale : ℚ) (zs : List ℚ)
    (b : TimingBudget) : List ℚ × TimingBudget :=
  match zs with
  | [] => ([], b)
  | z :: rest =>
    let delay := TemporalEntropy.generate_delay z activity scale 1
    let next := allocateLoop activity scale rest
      { b with
        remaining_budget := b.remaining_budget - delay
        actions_taken := b.actions_taken + 1 }
    (delay :: next.1, next.2)

/-- `TimingBudget.allocate(activity, count)`: `count` zeros when the budget is
exhausted, otherwise delays generated with `multiplier = scale` where `scale`
compresses the batch when `ideal_time` exceeds the remaining budget.  Returns
the delays together with the post-call object state. -/
def allocate (b : TimingBudget) (activity : ActivityType) (count : ℕ)
    (zs : ℕ → ℚ) : List ℚ × TimingBudget :=
  if b.remaining_budget ≤ 0 then (List.replicate count 0, b)
  else
    let profile := TemporalEntropy.PROFILES activity
    let ideal_time := profile.mean * count
    let scale :=
      if ideal_time > b.remaining_budget then b.remaining_budget / ideal_time
      else 1
    allocateLoop activity scale ((List.range count).map zs) b

/-- `TimingBudget.get_remaining_time`. -/
def get_remaining_time (b : TimingBudget) : ℚ :=
  max 0 b.remaining_budget

end TimingBudget

/- ---------------------------------------------------------------------
Profile facts and clamp lemmas
--------------------------------------------------------------------- -/

theorem profile_min_pos (a : ActivityType) :
    0 < (TemporalEntropy.PROFILES a).min_value := by
  cases a <;> norm_num [TemporalEntropy.PROFILES]

theorem profile_min_le_max (a : ActivityType) :
    (TemporalEntropy.PROFILES a).min_value
      ≤ (TemporalEntropy.PROFILES a).max_value := by
  cases a <;> norm_num [TemporalEntropy.PROFILES]

theorem generate_delay_ge_min (z : ℚ) (a : ActivityType) (m r : ℚ) :
    (TemporalEntropy.PROFILES a).min_value
      ≤ TemporalEntropy.generate_delay z a m r :=
  le_max_left _ _

theorem generate_delay_le_max (z : ℚ) (a : ActivityType) (m r : ℚ) :
    TemporalEntropy.generate_delay z a m r
      ≤ (TemporalEntropy.PROFILES a).max_value :=
  max_le (profile_min_le_max a) (min_le_left _ _)

theorem allocateLoop_remaining (a : ActivityType) (scale : ℚ) (zs : List ℚ)
    (b : TimingBudget) :
    (TimingBudget.allocateLoop a scale zs b).2.remaining_budget
      = b.remaining_budget - ((TimingBudget.allocateLoop a scale zs b).1).sum := by
  induction zs generalizing b with
  | nil => simp [TimingBudget.allocateLoop]
  | cons z rest ih =>
    simp only [TimingBudget.allocateLoop, List.sum_cons]
    rw [ih]
    ring_nf

theorem allocateLoop_sum_le (a : ActivityType) (scale : ℚ) (zs : List ℚ)
    (b : TimingBudget) :
    ((TimingBudget.allocateLoop a scale zs b).1).sum
      ≤ zs.length * (TemporalEntropy.PROFILES a).max_value := by
  induction zs generalizing b with
  | nil => simp [TimingBudget.allocateLoop]
  | cons z rest ih =>
    simp only [TimingBudget.allocateLoop, List.sum_cons, List.length_cons]
    have h1 := generate_delay_le_max z a scale 1
    have h2 := ih { b with
      remaining_budget :=
        b.remaining_budget - TemporalEntropy.generate_delay z a scale 1
      actions_taken := b.actions_taken + 1 }
    push_cast
    linarith

theorem allocateLoop_length (a : ActivityType) (scale : ℚ) (zs : List ℚ)
    (b : TimingBudget) :
    ((TimingBudget.allocateLoop a scale zs b).1).length = zs.length := by
  induction zs generalizing b with
  | nil => simp [TimingBudget.allocateLoop]
  | cons z rest ih =>
    simp only [TimingBudget.allocateLoop, List.length_cons]
    rw [ih]

/- ---------------------------------------------------------------------
Claims C3 and C1
--------------------------------------------------------------------- -/

/-- Claim C3: for every `ActivityType` and every pair of multipliers, every
value returned by `TemporalEntropy.generate_delay` lies in
`[profile.min_value, profile.max_value]` of that activity's `TimingProfile`;
in particular it is strictly positive (never negative) and bounded above
(never unbounded), for any draw `z` of the Gaussian source. -/
theorem C3_generate_delay_in_profile_bounds (z : ℚ) (a : ActivityType)
    (multiplier randomness_factor : ℚ) :
    (TemporalEntropy.PROFILES a).min_value
        ≤ TemporalEntropy.generate_delay z a multiplier randomness_factor
      ∧ TemporalEntropy.generate_delay z a multiplier randomness_factor
        ≤ (TemporalEntropy.PROFILES a).max_value
      ∧ 0 < TemporalEntropy.generate_delay z a multiplier randomness_factor :=
  ⟨generate_delay_ge_min _ _ _ _,
   generate_delay_le_max _ _ _ _,
   lt_of_lt_of_le (profile_min_pos a) (generate_delay_ge_min _ _ _ _)⟩

/-- Claim C1, counterexample to the claim as stated: a `TimingBudget` with
`remaining_budget = 1/2 > 0` allocating one `READING_SENTENCE` delay (Gaussian
draw `z = 0`).  The scaled mean is `2.5 * (1/5) = 1/2`, but `generate_delay`
clamps the result up to the profile's `min_value = 1`, so the single returned
delay sums to `1`, exceeding the pre-call `remaining_budget = 1/2` by `1/2`
(far more than one floating-point epsilon), and the post-call
`remaining_budget` attribute is `-1/2 < 0`. -/
theorem C1_allocate_counterexample :
    (((TimingBudget.mk 10 (1/2) 0).allocate .READING_SENTENCE 1 (fun _ => 0)).1).sum
        = 1
      ∧ ((TimingBudget.mk 10 (1/2) 0).allocate .READING_SENTENCE 1 (fun _ => 0)).2.remaining_budget
        = -(1/2)
      ∧ ¬ ((1 : ℚ) ≤ 1/2 + 1/4)
      ∧ ¬ (0 ≤ (-(1/2) : ℚ)) := by
  norm_num [TimingBudget.allocate, TimingBudget.allocateLoop,
    TemporalEntropy.generate_delay, TemporalEntropy.gauss,
    TemporalEntropy.PROFILES, List.range_succ, max_def, min_def]

/-- Claim C1 as amended: for every `TimingBudget` and `allocate(activity,
count)` call, if `remaining_budget ≤ 0` before the call the result is `count`
zeros and the state is unchanged; otherwise the observable remaining time
`get_remaining_time` is never negative (floored at zero), the internal
`remaining_budget` decreases by exactly the sum of the returned delays (and
may go negative), and the sum of the `count` returned delays is bounded by
`count * profile.max_value` — it can exceed the pre-call `remaining_budget`,
because each delay is clamped up to the profile's `min_value`. -/
theorem C1_allocate_amended (b : TimingBudget) (a : ActivityType) (count : ℕ)
    (zs : ℕ → ℚ) :
    (b.remaining_budget ≤ 0 → b.allocate a count zs = (List.replicate count 0, b))
      ∧ (0 < b.remaining_budget →
          0 ≤ (b.allocate a count zs).2.get_remaining_time
          ∧ (b.allocate a count zs).2.remaining_budget
            = b.remaining_budget - ((b.allocate a count zs).1).sum
          ∧ ((b.allocate a count zs).1).sum
            ≤ count * (TemporalEntropy.PROFILES a).max_value) := by
  constructor
  · intro h
    simp [TimingBudget.allocate, h]
  · intro h
    have hneg : ¬ b.remaining_budget ≤ 0 := not_le.mpr h
    refine ⟨le_max_left _ _, ?_, ?_⟩
    · simp only [TimingBudget.allocate, if_neg hneg]
      exact allocateLoop_remaining _ _ _ _
    · simp only [TimingBudget.allocate, if_neg hneg]
      have := allocateLoop_sum_le a
        (if (TemporalEntropy.PROFILES a).mean * count > b.remaining_budget then
          b.remaining_budget / ((TemporalEntropy.PROFILES a).mean * count)
        else 1) ((List.range count).map zs) b
      simpa using this

/-- Claim C1 witness: the amended theorem instantiated at a concrete budget
(`remaining_budget = 2`), activity and draw. -/
theorem C1_allocate_amended_witness :
    0 ≤ ((TimingBudget.mk 10 2 0).allocate .THINKING 1 (fun _ => 0)).2.get_remaining_time
      ∧ ((TimingBudget.mk 10 2 0).allocate .THINKING 1 (fun _ => 0)).2.remaining_budget
        = (TimingBudget.mk 10 2 0).remaining_budget
          - (((TimingBudget.mk 10 2 0).allocate .THINKING 1 (fun _ => 0)).1).sum
      ∧ (((TimingBudget.mk 10 2 0).allocate .THINKING 1 (fun _ => 0)).1).sum
        ≤ (1 : ℕ) * (TemporalEntropy.PROFILES .THINKING).max_value :=
  (C1_allocate_amended (TimingBudget.mk 10 2 0) .THINKING 1 (fun _ => 0)).2
    (by norm_num)

/- ---------------------------------------------------------------------
reading_mimicry.py
--------------------------------------------------------------------- -/

/-- Whether `pat` occurs as a contiguous run of `l` (substring search, the
semantics of a JS regex made of plain literals joined by `|`). -/
def hasSub (pat : List Char) : List Char → Bool
  | [] => pat.isPrefixOf ([] : List Char)
  | c :: rest => pat.isPrefixOf (c :: rest) || hasSub pat rest

/-- The case-insensitive trap lexicon `/hidden|trap|honeypot|bot-trap/i` of
`JS_HONEYPOT_DETECTION`, applied to `element.className` / `element.id`. -/
def matchesTrapLexicon (s : String) : Bool :=
  let l := s.data.map Char.toLower
  hasSub "hidden".data l || hasSub "trap".data l
    || hasSub "honeypot".data l || hasSub "bot-trap".data l

/-- `getBoundingClientRect()` projection: `left = x`, `top = y`,
`right = x + width`, `bottom = y + height`. -/
structure Rect where
  x : ℚ
  y : ℚ
  width : ℚ
  height : ℚ

namespace Rect

def left (r : Rect) : ℚ := r.x

def top (r : Rect) : ℚ := r.y

def right (r : Rect) : ℚ := r.x + r.width

def bottom (r : Rect) : ℚ := r.y + r.height

end Rect

/-- Read-only projection of a DOM element's geometry and computed style, as
the two JS snippets consume it.  `opacity` models `parseFloat(style.opacity)`
(`none` = NaN), `zIndex` / `leftStyle` / `topStyle` model
`parseInt(...)` (`none` = NaN, e.g. `z-index: auto`). -/
structure ElementSnapshot where
  display : String
  visibility : String
  opacity : Option ℚ
  zIndex : Option ℤ
  position : String
  leftStyle : Option ℤ
  topStyle : Option ℤ
  rect : Rect
  id : String
  className : String

/-- `window.innerWidth` / `window.innerHeight` as the JS snippets read them. -/
structure Viewport where
  innerWidth : ℚ
  innerHeight : ℚ

namespace HoneypotDetector

/-- A JS comparison against a possibly-NaN parsed number: false when the
parse failed (`none`), the test otherwise. -/
def optTest {α : Type} (o : Option α) (p : α → Bool) : Bool :=
  match o with
  | some x => p x
  | none => false

theorem optTest_eq_true {α : Type} (o : Option α) (p : α → Bool) :
    optTest o p = true ↔ ∃ x, o = some x ∧ p x = true := by
  cases o <;> simp [optTest]

/-- The `checks` object computed by `JS_VISIBILITY_CHECK`. -/
structure VisibilityChecks where
  display : Bool
  visibility : Bool
  opacity : Bool
  zIndex : ℤ
  width : Bool
  height : Bool
  inViewport : Bool

/-- `JS_VISIBILITY_CHECK` on a present element: each check as computed by the
snippet; `zIndex` is `parseInt(style.zIndex) || 0`. -/
def js_visibility_check (el : ElementSnapshot) (vp : Viewport) : VisibilityChecks :=
  { display := el.display != "none"
    visibility := el.visibility != "hidden"
    opacity := optTest el.opacity (fun o => decide (0 < o))
    zIndex := el.zIndex.getD 0
    width := decide (0 < el.rect.width)
    height := decide (0 < el.rect.height)
    inViewport := decide (el.rect.top < vp.innerHeight) && decide (0 < el.rect.bottom) }

/-- The `honeypotIndicators` object of `JS_HONEYPOT_DETECTION`. -/
structure HoneypotIndicators where
  displayNone : Bool
  visibilityHidden : Bool
  opacityZero : Bool
  offScreenLeft : Bool
  offScreenTop : Bool
  offScreenRight : Bool
  negativeZIndex : Bool
  zeroWidth : Bool
  zeroHeight : Bool
  tinyElement : Bool
  suspiciousClass : Bool
  suspiciousId : Bool
  fixedNegative : Bool

/-- `JS_HONEYPOT_DETECTION`'s indicator computation on a present element.
Comparisons against `NaN` (a `none` field) are false, as in JS. -/
def js_honeypot_indicators (el : ElementSnapshot) (vp : Viewport) : HoneypotIndicators :=
  { displayNone := el.display == "none"
    visibilityHidden := el.visibility == "hidden"
    opacityZero := optTest el.opacity (fun o => decide (o = 0))
    offScreenLeft := decide (el.rect.left < -100)
    offScreenTop := decide (el.rect.top < -100)
    offScreenRight := decide (vp.innerWidth + 100 < el.rect.right)
    negativeZIndex := optTest el.zIndex (fun z => decide (z < 0))
    zeroWidth := decide (el.rect.width = 0)
    zeroHeight := decide (el.rect.height = 0)
    tinyElement := decide (el.rect.width < 2) && decide (el.rect.height < 2)
    suspiciousClass := matchesTrapLexicon el.className
    suspiciousId := matchesTrapLexicon el.id
    fixedNegative := el.position == "fixed"
      && (optTest el.leftStyle (fun v => decide (v < -50))
        || optTest el.topStyle (fun v => decide (v < -50))) }

/-- `Object.values(honeypotIndicators).some(v => v === true)`. -/
def HoneypotIndicators.anyIndicator (i : HoneypotIndicators) : Bool :=
  i.displayNone || i.visibilityHidden || i.opacityZero
    || i.offScreenLeft || i.offScreenTop || i.offScreenRight
    || i.negativeZIndex || i.zeroWidth || i.zeroHeight || i.tinyElement
    || i.suspiciousClass || i.suspiciousId || i.fixedNegative

/-- The object `JS_HONEYPOT_DETECTION` returns for a present element. -/
structure HoneypotResult where
  isHoneypot : Bool
  indicators : HoneypotIndicators
  zIndex : ℤ
  visibility : String
  opacity : Option ℚ
  display : String
  rect : Rect

/-- `JS_HONEYPOT_DETECTION` on a present element. -/
def js_honeypot_detection (el : ElementSnapshot) (vp : Viewport) : HoneypotResult :=
  let ind := js_honeypot_indicators el vp
  { isHoneypot := ind.anyIndicator
    indicators := ind
    zIndex := el.zIndex.getD 0
    visibility := el.visibility
    opacity := el.opacity
    display := el.display
    rect := el.rect }

/-- Outcome of `page.query_selector(selector)` as the Python wrappers see it:
an exception, no element, or an element snapshot. -/
inductive QueryOutcome where
  | raised
  | notFound
  | found (el : ElementSnapshot)

/-- `HoneypotDetector.is_element_safe`'s boolean result: `False` when the
query raises, when the element is missing, or when `page.evaluate` raises
(the `try`/`except` returns `(False, ...)`); otherwise `not isHoneypot`.
`evalRaises` models a transport failure of the `page.evaluate` call. -/
def is_element_safe (q : QueryOutcome) (evalRaises : Bool) (vp : Viewport) : Bool :=
  match q with
  | .raised => false
  | .notFound => false
  | .found el =>
    if evalRaises then false
    else !(js_honeypot_detection el vp).isHoneypot

/-- `HoneypotDetector.is_element_visible`'s boolean result: `False` on any
failure, otherwise the conjunction the Python code takes over the checks
(`display`, `visibility`, `opacity`, `width`, `height`, `zIndex >= 0` — the
computed `inViewport` check is not part of the `all([...])`). -/
def is_element_visible (q : QueryOutcome) (evalRaises : Bool) (vp : Viewport) : Bool :=
  match q with
  | .raised => false
  | .notFound => false
  | .found el =>
    if evalRaises then false
    else
      let checks := js_visibility_check el vp
      checks.display && checks.visibility && checks.opacity
        && checks.width && checks.height && decide (0 ≤ checks.zIndex)

end HoneypotDetector

/-- `ViewportInfo` dataclass of reading_mimicry.py. -/
structure ViewportInfo where
  width : ℤ
  height : ℤ
  scroll_y : ℤ
  scroll_x : ℤ
  max_scroll_y : ℤ
  max_scroll_x : ℤ

namespace ScrollBehavior

/-- The scroll loop of `ScrollBehavior.burst_scroll`: one entry of `us` per
iteration (the `uniform(0.6, 1.2)` draw), `scroll_amount =
int(viewport.height * u)`, `new_position = min(current + scroll_amount,
max_scroll_y)`; the loop records the scroll and breaks once `new_position >=
max_scroll_y`.  Returns the successive scroll positions. -/
def scrollSteps (vp : ViewportInfo) (pos : ℤ) : List ℚ → List ℤ
  | [] => []
  | u :: rest =>
    let scroll_amount := pyInt ((vp.height : ℚ) * u)
    let new_position := min (pos + scroll_amount) vp.max_scroll_y
    if vp.max_scroll_y ≤ new_position then [new_position]
    else new_position :: scrollSteps vp new_position rest

/-- The `num_scrolls is None` branch: `int((total_height / viewport_height) *
uniform(0.7, 1.0))`, then `max(3, ...)`. -/
def num_scrolls_default (vp : ViewportInfo) (u : ℚ) : ℤ :=
  max 3 (pyInt (((vp.max_scroll_y : ℚ) / (vp.height : ℚ)) * u))

/-- Number of loop iterations `burst_scroll` sets up. -/
def burstCount (vp : ViewportInfo) (num_scrolls : Option ℕ) (countDraw : ℚ) : ℕ :=
  match num_scrolls with
  | some n => n
  | none => (num_scrolls_default vp countDraw).toNat

/-- `ScrollBehavior.burst_scroll` (scroll-position behavior): `countDraw` is
the `uniform(0.7, 1.0)` draw used when `num_scrolls` is `None`, `us` the
stream of `uniform(0.6, 1.2)` scroll-amount draws, `pos` the starting
`self.current_position`.  The reading pauses and optional hovers drawn
between scrolls do not affect the positions and are not modelled. -/
def burst_scroll (vp : ViewportInfo) (num_scrolls : Option ℕ) (countDraw : ℚ)
    (us : ℕ → ℚ) (pos : ℤ) : List ℤ :=
  scrollSteps vp pos ((List.range (burstCount vp num_scrolls countDraw)).map us)

/-- Modelled from the spec's words (claim C9): the claimed scroll count
`clamp(round((maxScrollY/viewportHeight) * u), 3, ∞)`, with `round` instead
of the code's `int` truncation. -/
def spec_num_scrolls (vp : ViewportInfo) (u : ℚ) : ℤ :=
  max 3 (round (((vp.max_scroll_y : ℚ) / (vp.height : ℚ)) * u))

end ScrollBehavior

/- ---------------------------------------------------------------------
infiltrator_complete.py — _random_interaction
--------------------------------------------------------------------- -/

/-- The three candidate interactions of `InfiltratorSession._random_interaction`,
in list order. -/
inductive Interaction where
  | scroll_to_bottom
  | hover_over_images
  | read_comments_section
deriving DecidableEq

namespace InfiltratorSession

def interactions : List Interaction :=
  [.scroll_to_bottom, .hover_over_images, .read_comments_section]

/-- The index expression `int(len(interactions) *
hash(str(asyncio.get_event_loop().time())) % len(interactions))`: `*` and `%`
share precedence and associate left in Python, so it is `(3 * h) % 3`, with
`h` the hash.  Python's `%` with a positive modulus agrees with `Int.emod`. -/
def random_interaction_index (h : ℤ) : ℤ :=
  ((interactions.length : ℤ) * h).emod (interactions.length : ℤ)

/-- `interaction = interactions[index]`. -/
def random_interaction (h : ℤ) : Interaction :=
  interactions.getD (random_interaction_index h).toNat .scroll_to_bottom

end InfiltratorSession

/- ---------------------------------------------------------------------
Claims C2, C7, C8
--------------------------------------------------------------------- -/

/-- Modelled from the spec's words (claim C2): the claimed `isVisible`
conjunction, including the vertical viewport-intersection conjunct
(`top < viewport height and bottom > 0`). -/
def claimed_is_visible (el : ElementSnapshot) (vp : Viewport) : Bool :=
  el.display != "none" && el.visibility != "hidden"
    && HoneypotDetector.optTest el.opacity (fun o => decide (0 < o))
    && decide (0 < el.rect.width) && decide (0 < el.rect.height)
    && decide (0 ≤ el.zIndex.getD 0)
    && (decide (el.rect.top < vp.innerHeight) && decide (0 < el.rect.bottom))

/-- A fully styled, normally sized element sitting far below the viewport
(top = 5000 in a 1080-pixel-high viewport). -/
def offscreenElement : ElementSnapshot :=
  ⟨"block", "visible", some 1, some 0, "static", none, none, ⟨10, 5000, 100, 40⟩, "", ""⟩

/-- Claim C2, counterexample to the claim as stated: the Python
`is_element_visible` conjunction omits the computed `inViewport` check, so an
element vertically outside the viewport is classified visible while the
claimed full conjunction is false. -/
theorem C2_is_visible_counterexample :
    HoneypotDetector.is_element_visible (.found offscreenElement) false ⟨1920, 1080⟩ = true
      ∧ claimed_is_visible offscreenElement ⟨1920, 1080⟩ = false
      ∧ ¬ (offscreenElement.rect.top < (1080 : ℚ)) := by
  refine ⟨?_, ?_, by norm_num [offscreenElement, Rect.top]⟩
  · norm_num [HoneypotDetector.is_element_visible,
      HoneypotDetector.js_visibility_check, HoneypotDetector.optTest,
      offscreenElement]
    decide
  · norm_num [claimed_is_visible, HoneypotDetector.optTest, offscreenElement,
      Rect.top, Rect.bottom]

/-- Claim C2 as amended: `is_element_visible` reports true exactly when
display ≠ none, visibility ≠ hidden, opacity > 0, width > 0, height > 0 and
z-index ≥ 0 all hold — the viewport-intersection check is computed by the JS
snippet but not required by the Python conjunction. -/
theorem C2_is_visible_amended (el : ElementSnapshot) (vp : Viewport) :
    HoneypotDetector.is_element_visible (.found el) false vp = true ↔
      (el.display ≠ "none" ∧ el.visibility ≠ "hidden"
        ∧ (∃ o, el.opacity = some o ∧ 0 < o)
        ∧ 0 < el.rect.width ∧ 0 < el.rect.height ∧ 0 ≤ el.zIndex.getD 0) := by
  simp only [HoneypotDetector.is_element_visible, HoneypotDetector.js_visibility_check]
  simp [HoneypotDetector.optTest_eq_true, and_assoc]

/-- The scenario snapshot of claim C7: `{display:'none', rect:{0,0,0,0},
zIndex:0}` with otherwise benign style. -/
def scenarioElement : ElementSnapshot :=
  ⟨"none", "visible", some 1, some 0, "static", none, none, ⟨0, 0, 0, 0⟩, "", ""⟩

/-- Claim C7: `isHoneypot` is true exactly when at least one of the listed
indicators holds (display=none; visibility=hidden; opacity = 0; left < −100
or top < −100 or right > viewportWidth+100; negative z-index; zero width or
zero height; width<2 and height<2; identifier or class matching the
case-insensitive trap lexicon; fixed position with left or top < −50); and
the scenario snapshot `{display:'none', rect:{0,0,0,0}, zIndex:0}` yields
`isHoneypot = true`, `isVisible = false`. -/
theorem C7_honeypot_iff (el : ElementSnapshot) (vp : Viewport) :
    ((HoneypotDetector.js_honeypot_detection el vp).isHoneypot = true ↔
      (el.display = "none" ∨ el.visibility = "hidden"
        ∨ el.opacity = some 0
        ∨ el.rect.left < -100 ∨ el.rect.top < -100
        ∨ vp.innerWidth + 100 < el.rect.right
        ∨ (∃ z, el.zIndex = some z ∧ z < 0)
        ∨ el.rect.width = 0 ∨ el.rect.height = 0
        ∨ (el.rect.width < 2 ∧ el.rect.height < 2)
        ∨ matchesTrapLexicon el.className = true ∨ matchesTrapLexicon el.id = true
        ∨ (el.position = "fixed"
            ∧ ((∃ v, el.leftStyle = some v ∧ v < -50)
              ∨ (∃ v, el.topStyle = some v ∧ v < -50)))))
      ∧ (HoneypotDetector.js_honeypot_detection scenarioElement ⟨1920, 1080⟩).isHoneypot = true
      ∧ HoneypotDetector.is_element_visible (.found scenarioElement) false ⟨1920, 1080⟩ = false := by
  refine ⟨?_, ?_, ?_⟩
  · simp only [HoneypotDetector.js_honeypot_detection,
      HoneypotDetector.HoneypotIndicators.anyIndicator,
      HoneypotDetector.js_honeypot_indicators]
    simp [HoneypotDetector.optTest_eq_true, Rect.left, Rect.top, Rect.right, or_assoc]
  · norm_num [HoneypotDetector.js_honeypot_detection,
      HoneypotDetector.js_honeypot_indicators,
      HoneypotDetector.HoneypotIndicators.anyIndicator,
      HoneypotDetector.optTest, scenarioElement]
  · norm_num [HoneypotDetector.is_element_visible,
      HoneypotDetector.js_visibility_check, HoneypotDetector.optTest, scenarioElement]

/-- Claim C8: for every selector whose element is absent, and for every
failure raised by the inspection interface, `is_element_safe` reports
not-safe and `is_element_visible` reports not-visible; both functions are
total (the Python `try`/`except` re-raises nothing). -/
theorem C8_fail_closed (q : HoneypotDetector.QueryOutcome) (evalRaises : Bool)
    (vp : Viewport)
    (h : q = .raised ∨ q = .notFound ∨ evalRaises = true) :
    HoneypotDetector.is_element_safe q evalRaises vp = false
      ∧ HoneypotDetector.is_element_visible q evalRaises vp = false := by
  rcases h with rfl | rfl | rfl
  · exact ⟨rfl, rfl⟩
  · exact ⟨rfl, rfl⟩
  · cases q <;>
      simp [HoneypotDetector.is_element_safe, HoneypotDetector.is_element_visible]

/-- Claim C8 witness: an element missing from the DOM snapshot is reported
both unsafe and not visible. -/
theorem C8_fail_closed_witness :
    HoneypotDetector.is_element_safe .notFound false ⟨1920, 1080⟩ = false
      ∧ HoneypotDetector.is_element_visible .notFound false ⟨1920, 1080⟩ = false :=
  C8_fail_closed .notFound false ⟨1920, 1080⟩ (Or.inr (Or.inl rfl))

/- ---------------------------------------------------------------------
Claim C9
--------------------------------------------------------------------- -/

theorem scrollSteps_spec (vp : ViewportInfo) (us : List ℚ) (pos : ℤ) :
    (∀ p ∈ ScrollBehavior.scrollSteps vp pos us, p ≤ vp.max_scroll_y)
      ∧ (∀ p ∈ (ScrollBehavior.scrollSteps vp pos us).dropLast, p < vp.max_scroll_y)
      ∧ (ScrollBehavior.scrollSteps vp pos us).length ≤ us.length
      ∧ ((ScrollBehavior.scrollSteps vp pos us).length = us.length
          ∨ (ScrollBehavior.scrollSteps vp pos us).getLast? = some vp.max_scroll_y) := by
  induction us generalizing pos with
  | nil => simp [ScrollBehavior.scrollSteps]
  | cons u rest ih =>
    obtain ⟨ih1, ih2, ih3, ih4⟩ :=
      ih (min (pos + pyInt ((vp.height : ℚ) * u)) vp.max_scroll_y)
    simp only [ScrollBehavior.scrollSteps]
    by_cases h : vp.max_scroll_y ≤ min (pos + pyInt ((vp.height : ℚ) * u)) vp.max_scroll_y
    · rw [if_pos h]
      have heq : min (pos + pyInt ((vp.height : ℚ) * u)) vp.max_scroll_y
          = vp.max_scroll_y :=
        le_antisymm (min_le_right _ _) h
      refine ⟨?_, ?_, by simp, Or.inr (by simp [heq])⟩
      · intro p hp
        simp only [List.mem_singleton] at hp
        subst hp
        exact min_le_right _ _
      · intro p hp
        simp at hp
    · rw [if_neg h]
      refine ⟨?_, ?_, ?_, ?_⟩
      · intro p hp
        rcases List.mem_cons.mp hp with rfl | hmem
        · exact min_le_right _ _
        · exact ih1 p hmem
      · intro p hp
        cases hrest : ScrollBehavior.scrollSteps vp
            (min (pos + pyInt ((vp.height : ℚ) * u)) vp.max_scroll_y) rest with
        | nil => rw [hrest] at hp; simp at hp
        | cons q l =>
          rw [hrest, List.dropLast_cons₂] at hp
          rcases List.mem_cons.mp hp with rfl | hmem
          · exact not_le.mp h
          · rw [← hrest] at hmem
            exact ih2 p hmem
      · simpa using Nat.succ_le_succ ih3
      · rcases ih4 with h4 | h4
        · exact Or.inl (by simpa using congrArg Nat.succ h4)
        · right
          cases hrest : ScrollBehavior.scrollSteps vp
              (min (pos + pyInt ((vp.height : ℚ) * u)) vp.max_scroll_y) rest with
          | nil => rw [hrest] at h4; simp at h4
          | cons q l =>
            rw [hrest] at h4
            rw [List.getLast?_cons_cons]
            exact h4

/-- Claim C9 as amended: with the scroll count unspecified, `burst_scroll`
performs `max(3, int((maxScrollY/viewportHeight) * uniform(0.7, 1.0)))`
iterations (`int` truncates toward zero — not `round`); each step advances
the position to `min(current + int(viewportHeight * uniform(0.6, 1.2)),
maxScrollY)`, so the recorded positions never exceed `maxScrollY`, every
position before the last is strictly below `maxScrollY` (the loop breaks as
soon as `maxScrollY` is reached), and either all planned iterations run or
the final recorded position is `maxScrollY`. -/
theorem C9_burst_scroll_amended (vp : ViewportInfo) (num_scrolls : Option ℕ)
    (countDraw : ℚ) (us : ℕ → ℚ) (pos : ℤ) :
    (∀ p ∈ ScrollBehavior.burst_scroll vp num_scrolls countDraw us pos,
        p ≤ vp.max_scroll_y)
      ∧ (∀ p ∈ (ScrollBehavior.burst_scroll vp num_scrolls countDraw us pos).dropLast,
          p < vp.max_scroll_y)
      ∧ (ScrollBehavior.burst_scroll vp num_scrolls countDraw us pos).length
        ≤ ScrollBehavior.burstCount vp num_scrolls countDraw
      ∧ ((ScrollBehavior.burst_scroll vp num_scrolls countDraw us pos).length
            = ScrollBehavior.burstCount vp num_scrolls countDraw
          ∨ (ScrollBehavior.burst_scroll vp num_scrolls countDraw us pos).getLast?
            = some vp.max_scroll_y) := by
  have h := scrollSteps_spec vp
    ((List.range (ScrollBehavior.burstCount vp num_scrolls countDraw)).map us) pos
  simpa [ScrollBehavior.burst_scroll] using h

/-- Claim C9, counterexample to the claim as stated: with
`maxScrollY = 5000`, `viewportHeight = 1000` and count draw `0.72` (inside
`uniform(0.7, 1.0)`), the code computes `int(5 * 0.72) = int(3.6) = 3`
scroll steps where the claimed formula `clamp(round(3.6), 3, ∞)` gives 4;
with scroll-amount draws of `0.6` every step the loop records exactly the 3
positions 600, 1200, 1800 (no early termination). -/
theorem C9_scroll_count_counterexample :
    ScrollBehavior.burst_scroll ⟨1000, 1000, 0, 0, 5000, 0⟩ none (18/25)
        (fun _ => 3/5) 0 = [600, 1200, 1800]
      ∧ ScrollBehavior.burstCount ⟨1000, 1000, 0, 0, 5000, 0⟩ none (18/25) = 3
      ∧ ScrollBehavior.spec_num_scrolls ⟨1000, 1000, 0, 0, 5000, 0⟩ (18/25) = 4
      ∧ ((7/10 : ℚ) ≤ 18/25 ∧ (18/25 : ℚ) ≤ 1)
      ∧ ((6/10 : ℚ) ≤ 3/5 ∧ (3/5 : ℚ) ≤ 12/10) := by
  have hcount : ScrollBehavior.burstCount ⟨1000, 1000, 0, 0, 5000, 0⟩ none (18/25) = 3 := by
    norm_num [ScrollBehavior.burstCount, ScrollBehavior.num_scrolls_default, pyInt]
    decide
  refine ⟨?_, hcount, ?_, by norm_num, by norm_num⟩
  · rw [ScrollBehavior.burst_scroll, hcount]
    norm_num [ScrollBehavior.scrollSteps, pyInt, List.range_succ, min_def]
  · norm_num [ScrollBehavior.spec_num_scrolls, round_eq]

/- ---------------------------------------------------------------------
Claim C10
--------------------------------------------------------------------- -/

/-- Claim C10: for every hash value, the index expression
`int(len(interactions) * hash(...) % len(interactions))` evaluates to 0
(`(3 * h) mod 3 = 0` for every integer `h`), so `_random_interaction` always
selects `interactions[0]` (`_scroll_to_bottom`) and never the hover-images or
read-comments interactions. -/
theorem C10_random_interaction_constant (h : ℤ) :
    InfiltratorSession.random_interaction_index h = 0
      ∧ InfiltratorSession.random_interaction h = Interaction.scroll_to_bottom
      ∧ InfiltratorSession.random_interaction h ≠ Interaction.hover_over_images
      ∧ InfiltratorSession.random_interaction h ≠ Interaction.read_comments_section := by
  have h0 : InfiltratorSession.random_interaction_index h = 0 :=
    Int.mul_emod_right 3 h
  have h1 : InfiltratorSession.random_interaction h = Interaction.scroll_to_bottom := by
    rw [InfiltratorSession.random_interaction, h0]
    rfl
  refine ⟨h0, h1, ?_, ?_⟩ <;> simp [h1]

/- ---------------------------------------------------------------------
kinematic_mouse.py
--------------------------------------------------------------------- -/

/-- `Point` dataclass (2D coordinate). -/
structure Point where
  x : ℝ
  y : ℝ

/-- `Point.distance_to`: Euclidean distance. -/
noncomputable def Point.distance_to (p other : Point) : ℝ :=
  Real.sqrt ((p.x - other.x) ^ 2 + (p.y - other.y) ^ 2)

/-- One `(x, y, timestamp_ms)` tuple of a generated path. -/
structure PathSample where
  x : ℝ
  y : ℝ
  ts : ℝ

namespace BezierCurve

/-- `BezierCurve.calculate_point`: cubic Bézier evaluation
`P(t) = (1-t)³P₀ + 3(1-t)²tP₁ + 3(1-t)t²P₂ + t³P₃`. -/
def calculate_point (t : ℝ) (p0 p1 p2 p3 : Point) : Point :=
  let u := 1 - t
  let tt := t * t
  let uu := u * u
  let uuu := uu * u
  let ttt := tt * t
  ⟨uuu * p0.x + 3 * uu * t * p1.x + 3 * u * tt * p2.x + ttt * p3.x,
   uuu * p0.y + 3 * uu * t * p1.y + 3 * u * tt * p2.y + ttt * p3.y⟩

/-- The uniform/choice draws `generate_control_points` consumes, in
consumption order: `depth ~ uniform(0.1, 0.3)`, `sign ~ choice([-1, 1])`,
`r1 ~ uniform(0.2, 0.4)`, `j1x, j1y ~ uniform(0.5, 1.0)`,
`r2 ~ uniform(0.6, 0.8)`, `j2x, j2y ~ uniform(0.5, 1.0)`. -/
structure CPDraws where
  depth : ℝ
  sign : ℝ
  r1 : ℝ
  j1x : ℝ
  j1y : ℝ
  r2 : ℝ
  j2x : ℝ
  j2y : ℝ

/-- `BezierCurve.generate_control_points` with its random draws explicit. -/
noncomputable def generate_control_points (s e : Point) (randomness : ℝ)
    (d : CPDraws) : Point × Point :=
  let dx := e.x - s.x
  let dy := e.y - s.y
  let distance := Real.sqrt (dx ^ 2 + dy ^ 2)
  let perp_x := -dy
  let perp_y := dx
  let perp_x := if distance > 0 then perp_x / distance else perp_x
  let perp_y := if distance > 0 then perp_y / distance else perp_y
  let curve_depth := distance * d.depth * randomness
  let cp1 : Point := ⟨s.x + dx * d.r1 + perp_x * curve_depth * d.sign * d.j1x,
                      s.y + dy * d.r1 + perp_y * curve_depth * d.sign * d.j1y⟩
  let cp2 : Point := ⟨s.x + dx * d.r2 + perp_x * curve_depth * d.sign * d.j2x,
                      s.y + dy * d.r2 + perp_y * curve_depth * d.sign * d.j2y⟩
  (cp1, cp2)

end BezierCurve

namespace FittsLaw

def A_CONSTANT : ℝ := 0.0

def B_CONSTANT : ℝ := 150.0

/-- `FittsLaw.calculate_movement_time`: `MT = a + b*log2(D/W + 1)`, the
target width replaced by 1 when `target_width <= 0`, the result scaled by
the `uniform(0.8, 1.2)` draw `u`. -/
noncomputable def calculate_movement_time (distance target_width u : ℝ) : ℝ :=
  let tw := if target_width ≤ 0 then 1 else target_width
  let index_of_difficulty := Real.logb 2 (distance / tw + 1)
  let movement_time := A_CONSTANT + B_CONSTANT * index_of_difficulty
  movement_time * u

end FittsLaw

namespace MicroTremor

/-- `MicroTremor.apply_tremor`: `random.gauss(0, intensity)` is modelled as
`intensity * z` with `z` the standard-normal draw. -/
def apply_tremor (point : Point) (intensity : ℝ) (zx zy : ℝ) : Point :=
  ⟨point.x + intensity * zx, point.y + intensity * zy⟩

end MicroTremor

namespace HumanMouseMovement

/-- `self.overshoot_probability = 0.10`. -/
def overshoot_probability : ℝ := 0.10

/-- `self.min_steps = 10` (as a float, the way `max` consumes it). -/
def min_steps : ℝ := 10

/-- `self.max_steps = 100`. -/
def max_steps : ℝ := 100

/-- Python `int(x)` on a real: truncation toward zero. -/
noncomputable def pyIntR (x : ℝ) : ℤ :=
  if 0 ≤ x then ⌊x⌋ else ⌈x⌉

/-- `int(max(self.min_steps, min(self.max_steps, distance / 10)))`. -/
noncomputable def num_steps (distance : ℝ) : ℕ :=
  (pyIntR (max min_steps (min max_steps (distance / 10)))).toNat

/-- `HumanMouseMovement._ease_in_out_cubic`. -/
noncomputable def _ease_in_out_cubic (t : ℝ) : ℝ :=
  if t < 0.5 then 4 * t ^ 3 else 1 - (-2 * t + 2) ^ 3 / 2

/-- The body of the `for i in range(num_steps + 1)` loop of
`_generate_normal_path`: parametric position `t = i / num_steps`, timestamp
`movement_time_ms * easeInOutCubic(t)`, Bézier point, tremor with intensity
0.3 at interior samples and 0.1 at the endpoints. -/
noncomputable def normalStep (s e : Point) (movement_time_ms : ℝ)
    (cp1 cp2 : Point) (zx zy : ℕ → ℝ) (N i : ℕ) : PathSample :=
  let t : ℝ := (i : ℝ) / (N : ℝ)
  let time_progress := _ease_in_out_cubic t
  let timestamp := movement_time_ms * time_progress
  let point := BezierCurve.calculate_point t s cp1 cp2 e
  let tremor_intensity : ℝ := if 0 < i ∧ i < N then 0.3 else 0.1
  let point2 := MicroTremor.apply_tremor point tremor_intensity (zx i) (zy i)
  ⟨point2.x, point2.y, timestamp⟩

/-- `HumanMouseMovement._generate_normal_path`, with the control-point draws
`cpd` and the per-sample tremor draws `zx`, `zy` explicit. -/
noncomputable def _generate_normal_path (s e : Point) (movement_time_ms : ℝ)
    (cpd : BezierCurve.CPDraws) (zx zy : ℕ → ℝ) : List PathSample :=
  let cps := BezierCurve.generate_control_points s e 0.3 cpd
  let N := num_steps (s.distance_to e)
  (List.range (N + 1)).map (normalStep s e movement_time_ms cps.1 cps.2 zx zy N)

/-- The overshoot point `start + (end - start) * ratio`, `ratio` the
`uniform(1.05, 1.15)` draw. -/
def overshootPoint (s e : Point) (ratio : ℝ) : Point :=
  ⟨s.x + (e.x - s.x) * ratio, s.y + (e.y - s.y) * ratio⟩

/-- `HumanMouseMovement._generate_overshoot_path`: sub-path to the overshoot
point with 70% of the movement time, corrective sub-path back with 30%, the
second path's timestamps offset by the first path's final timestamp, and the
duplicate junction sample dropped (`path2_adjusted[1:]`). -/
noncomputable def _generate_overshoot_path (s e : Point) (movement_time_ms : ℝ)
    (ratio : ℝ) (cpd1 cpd2 : BezierCurve.CPDraws)
    (z1x z1y z2x z2y : ℕ → ℝ) : List PathSample :=
  let op := overshootPoint s e ratio
  let path1 := _generate_normal_path s op (movement_time_ms * 0.7) cpd1 z1x z1y
  let path2 := _generate_normal_path op e (movement_time_ms * 0.3) cpd2 z2x z2y
  let last_timestamp := (path1.getLastD ⟨0, 0, 0⟩).ts
  path1 ++ (path2.map (fun p => ⟨p.x, p.y, p.ts + last_timestamp⟩)).tail

/-- The movement time `generate_path` computes: distance from start to end,
target size defaulted to `max(10, distance * 0.05)`, Fitts's law with the
`uniform(0.8, 1.2)` draw `u`. -/
noncomputable def plannedMovementTime (s e : ℝ × ℝ) (target_size : Option ℝ)
    (u : ℝ) : ℝ :=
  let start_point : Point := ⟨s.1, s.2⟩
  let end_point : Point := ⟨e.1, e.2⟩
  let distance := start_point.distance_to end_point
  FittsLaw.calculate_movement_time distance
    (target_size.getD (max 10 (distance * 0.05))) u

/-- `HumanMouseMovement.generate_path`: `uFitts` is the Fitts randomness
draw, `overshootDraw` the `random.random()` draw deciding the overshoot
branch, `ratio` the overshoot-ratio draw; `cpd1`/`z1x`/`z1y` are the draws
of the first (or only) sub-path and `cpd2`/`z2x`/`z2y` those of the
corrective sub-path. -/
noncomputable def generate_path (s e : ℝ × ℝ) (target_size : Option ℝ)
    (uFitts overshootDraw ratio : ℝ) (cpd1 cpd2 : BezierCurve.CPDraws)
    (z1x z1y z2x z2y : ℕ → ℝ) : List PathSample :=
  let start_point : Point := ⟨s.1, s.2⟩
  let end_point : Point := ⟨e.1, e.2⟩
  let base_movement_time := plannedMovementTime s e target_size uFitts
  if overshootDraw < overshoot_probability then
    _generate_overshoot_path start_point end_point base_movement_time ratio
      cpd1 cpd2 z1x z1y z2x z2y
  else
    _generate_normal_path start_point end_point base_movement_time cpd1 z1x z1y

end HumanMouseMovement

/- ---------------------------------------------------------------------
Kinematic helper lemmas
--------------------------------------------------------------------- -/

namespace HumanMouseMovement

theorem normalStep_ts (s e : Point) (mt : ℝ) (cp1 cp2 : Point)
    (zx zy : ℕ → ℝ) (N i : ℕ) :
    (normalStep s e mt cp1 cp2 zx zy N i).ts
      = mt * _ease_in_out_cubic ((i : ℝ) / (N : ℝ)) := rfl

theorem ease_zero : _ease_in_out_cubic 0 = 0 := by
  simp only [_ease_in_out_cubic]
  norm_num

theorem ease_one : _ease_in_out_cubic 1 = 1 := by
  simp only [_ease_in_out_cubic]
  norm_num

theorem ease_mono {a b : ℝ} (ha : 0 ≤ a) (hab : a ≤ b) (hb : b ≤ 1) :
    _ease_in_out_cubic a ≤ _ease_in_out_cubic b := by
  unfold _ease_in_out_cubic
  by_cases h1 : a < 0.5 <;> by_cases h2 : b < 0.5
  · rw [if_pos h1, if_pos h2]
    have h3 := pow_le_pow_left₀ ha hab 3
    linarith
  · rw [if_pos h1, if_neg h2]
    push_neg at h2
    have h3 : a ^ 3 ≤ (0.5 : ℝ) ^ 3 := pow_le_pow_left₀ ha (le_of_lt h1) 3
    have h4 : (0:ℝ) ≤ -2 * b + 2 := by linarith
    have h5 : -2 * b + 2 ≤ 1 := by linarith
    have h6 : (-2 * b + 2) ^ 3 ≤ 1 ^ 3 := pow_le_pow_left₀ h4 h5 3
    norm_num at h3 h6
    linarith
  · exfalso
    push_neg at h1
    linarith
  · rw [if_neg h1, if_neg h2]
    push_neg at h1 h2
    have h4 : (0:ℝ) ≤ -2 * b + 2 := by linarith
    have h5 : -2 * b + 2 ≤ -2 * a + 2 := by linarith
    have h6 := pow_le_pow_left₀ h4 h5 3
    linarith

theorem ease_nonneg {t : ℝ} (h0 : 0 ≤ t) (h1 : t ≤ 1) :
    0 ≤ _ease_in_out_cubic t := by
  have h := ease_mono (le_refl 0) h0 h1
  rw [ease_zero] at h
  exact h

theorem num_steps_ge_ten (d : ℝ) : 10 ≤ num_steps d := by
  unfold num_steps pyIntR
  have hx : (10:ℝ) ≤ max min_steps (min max_steps (d / 10)) := by
    have h := le_max_left min_steps (min max_steps (d / 10))
    rw [min_steps] at h
    exact h
  rw [if_pos (le_trans (by norm_num) hx)]
  have h2 : (10:ℤ) ≤ ⌊max min_steps (min max_steps (d / 10))⌋ := by
    rw [Int.le_floor]
    exact_mod_cast hx
  exact (Int.le_toNat (le_trans (by norm_num) h2)).mpr h2

theorem num_steps_cast_pos (d : ℝ) : (0:ℝ) < (num_steps d : ℝ) := by
  have := num_steps_ge_ten d
  exact_mod_cast (by omega : 0 < num_steps d)

theorem normal_path_length (s e : Point) (mt : ℝ) (cpd : BezierCurve.CPDraws)
    (zx zy : ℕ → ℝ) :
    (_generate_normal_path s e mt cpd zx zy).length
      = num_steps (s.distance_to e) + 1 := by
  simp [_generate_normal_path]

theorem normal_path_ne_nil (s e : Point) (mt : ℝ) (cpd : BezierCurve.CPDraws)
    (zx zy : ℕ → ℝ) :
    _generate_normal_path s e mt cpd zx zy ≠ [] := by
  simp [_generate_normal_path]

theorem normal_path_head_ts (s e : Point) (mt : ℝ) (cpd : BezierCurve.CPDraws)
    (zx zy : ℕ → ℝ) :
    ((_generate_normal_path s e mt cpd zx zy).head?).map PathSample.ts
      = some 0 := by
  have h : (_generate_normal_path s e mt cpd zx zy).head?
      = some (normalStep s e mt (BezierCurve.generate_control_points s e 0.3 cpd).1
          (BezierCurve.generate_control_points s e 0.3 cpd).2 zx zy
          (num_steps (s.distance_to e)) 0) := by
    simp only [_generate_normal_path]
    rw [List.range_succ_eq_map, List.map_cons, List.head?_cons]
  rw [h]
  simp [normalStep_ts, ease_zero]

theorem normal_path_getLast_ts (s e : Point) (mt : ℝ)
    (cpd : BezierCurve.CPDraws) (zx zy : ℕ → ℝ) :
    ((_generate_normal_path s e mt cpd zx zy).getLastD ⟨0, 0, 0⟩).ts = mt := by
  have hN := num_steps_ge_ten (s.distance_to e)
  simp only [_generate_normal_path]
  rw [List.range_succ, List.map_append]
  simp only [List.map_cons, List.map_nil]
  rw [List.getLastD_eq_getLast?, List.getLast?_concat]
  simp only [Option.getD_some]
  rw [normalStep_ts]
  rw [div_self (by exact_mod_cast (by omega : num_steps (s.distance_to e) ≠ 0))]
  rw [ease_one, mul_one]

theorem normal_path_chain (s e : Point) (mt : ℝ) (hmt : 0 ≤ mt)
    (cpd : BezierCurve.CPDraws) (zx zy : ℕ → ℝ) :
    List.Chain' (fun p q => p.ts ≤ q.ts)
      (_generate_normal_path s e mt cpd zx zy) := by
  have hN0 := num_steps_cast_pos (s.distance_to e)
  simp only [_generate_normal_path]
  refine (List.chain'_map _).mpr ((List.chain'_range_succ _ _).mpr ?_)
  intro m hm
  rw [normalStep_ts, normalStep_ts]
  apply mul_le_mul_of_nonneg_left _ hmt
  apply ease_mono
  · positivity
  · rw [div_le_div_iff_of_pos_right hN0]
    exact_mod_cast Nat.le_succ m
  · rw [div_le_one hN0]
    exact_mod_cast hm

theorem normal_shift_tail_head_ge (s e : Point) (mt c : ℝ) (hmt : 0 ≤ mt)
    (cpd : BezierCurve.CPDraws) (zx zy : ℕ → ℝ) :
    ∀ y ∈ (((_generate_normal_path s e mt cpd zx zy).map
        (fun p => PathSample.mk p.x p.y (p.ts + c))).tail).head?, c ≤ y.ts := by
  intro y hy
  have hN := num_steps_ge_ten (s.distance_to e)
  obtain ⟨N', hN'⟩ : ∃ k, num_steps (s.distance_to e) = k + 1 :=
    ⟨num_steps (s.distance_to e) - 1, by omega⟩
  simp only [_generate_normal_path, hN'] at hy
  rw [List.range_succ_eq_map, List.map_cons, List.map_cons, List.tail_cons,
    List.map_map, List.map_map, List.head?_map] at hy
  rw [show (List.range (N' + 1)).head? = some 0 by
    rw [List.range_succ_eq_map]; rfl] at hy
  have hyeq := Option.some_inj.mp (Option.mem_def.mp hy)
  subst hyeq
  show c ≤ (normalStep s e mt _ _ zx zy (N' + 1) (Nat.succ 0)).ts + c
  rw [normalStep_ts]
  have h0 : (0:ℝ) ≤ (Nat.succ 0 : ℕ) / ((N' + 1 : ℕ) : ℝ) := by positivity
  have h1 : ((Nat.succ 0 : ℕ) : ℝ) / ((N' + 1 : ℕ) : ℝ) ≤ 1 := by
    rw [div_le_one (by positivity)]
    exact_mod_cast by omega
  nlinarith [ease_nonneg h0 h1, mul_nonneg hmt (ease_nonneg h0 h1)]

theorem overshoot_path_head_ts (s e : Point) (mt ratio : ℝ)
    (cpd1 cpd2 : BezierCurve.CPDraws) (z1x z1y z2x z2y : ℕ → ℝ) :
    ((_generate_overshoot_path s e mt ratio cpd1 cpd2 z1x z1y z2x z2y).head?).map
      PathSample.ts = some 0 := by
  simp only [_generate_overshoot_path]
  rw [List.head?_append_of_ne_nil _ (normal_path_ne_nil _ _ _ _ _ _)]
  exact normal_path_head_ts _ _ _ _ _ _

theorem overshoot_path_chain (s e : Point) (mt : ℝ) (hmt : 0 ≤ mt)
    (ratio : ℝ) (cpd1 cpd2 : BezierCurve.CPDraws) (z1x z1y z2x z2y : ℕ → ℝ) :
    List.Chain' (fun p q => p.ts ≤ q.ts)
      (_generate_overshoot_path s e mt ratio cpd1 cpd2 z1x z1y z2x z2y) := by
  have hmt7 : 0 ≤ mt * 0.7 := mul_nonneg hmt (by norm_num)
  have hmt3 : 0 ≤ mt * 0.3 := mul_nonneg hmt (by norm_num)
  simp only [_generate_overshoot_path]
  rw [List.chain'_append]
  refine ⟨normal_path_chain _ _ _ hmt7 _ _ _, ?_, ?_⟩
  · exact List.Chain'.tail ((List.chain'_map _).mpr
      ((normal_path_chain _ _ _ hmt3 _ _ _).imp
        (fun p q hpq => add_le_add_right hpq _)))
  · intro x hx y hy
    have hxeq : x = (_generate_normal_path s (overshootPoint s e ratio)
        (mt * 0.7) cpd1 z1x z1y).getLastD ⟨0, 0, 0⟩ := by
      rw [List.getLastD_eq_getLast?, Option.mem_def.mp hx]
      rfl
    have hts : x.ts = mt * 0.7 := by
      rw [hxeq]
      exact normal_path_getLast_ts _ _ _ _ _ _
    have := normal_shift_tail_head_ge (overshootPoint s e ratio) e (mt * 0.3)
      ((_generate_normal_path s (overshootPoint s e ratio) (mt * 0.7) cpd1
        z1x z1y).getLastD ⟨0, 0, 0⟩).ts hmt3 cpd2 z2x z2y y hy
    rw [hts]
    calc mt * 0.7
        = ((_generate_normal_path s (overshootPoint s e ratio) (mt * 0.7) cpd1
            z1x z1y).getLastD ⟨0, 0, 0⟩).ts :=
          (normal_path_getLast_ts _ _ _ _ _ _).symm
      _ ≤ y.ts := this

theorem calculate_movement_time_nonneg (d w u : ℝ) (hd : 0 ≤ d) (hu : 0 ≤ u) :
    0 ≤ FittsLaw.calculate_movement_time d w u := by
  unfold FittsLaw.calculate_movement_time
  have hw : (0:ℝ) < if w ≤ 0 then 1 else w := by
    by_cases h0 : w ≤ 0
    · rw [if_pos h0]
      norm_num
    · rw [if_neg h0]
      exact lt_of_not_le h0
  have hlog : 0 ≤ Real.logb 2 (d / (if w ≤ 0 then 1 else w) + 1) :=
    Real.logb_nonneg one_lt_two (by nlinarith [div_nonneg hd hw.le])
  apply mul_nonneg _ hu
  rw [FittsLaw.A_CONSTANT, FittsLaw.B_CONSTANT]
  linarith

theorem distance_to_nonneg (p q : Point) : 0 ≤ p.distance_to q := by
  unfold Point.distance_to
  exact Real.sqrt_nonneg _

theorem plannedMovementTime_nonneg (s e : ℝ × ℝ) (target_size : Option ℝ)
    (u : ℝ) (hu : 0 ≤ u) : 0 ≤ plannedMovementTime s e target_size u := by
  unfold plannedMovementTime
  exact calculate_movement_time_nonneg _ _ _ (distance_to_nonneg _ _) hu

end HumanMouseMovement

/- ---------------------------------------------------------------------
Claims C4, C5, C6
--------------------------------------------------------------------- -/

/-- Claim C4: for every start/end pair and every draw of the random source
(`uFitts` being the nonnegative `uniform(0.8, 1.2)` Fitts draw), the planned
trajectory's first sample has `elapsed_ms = 0` and `elapsed_ms` is monotonic
non-decreasing across all samples of the whole trajectory, including across
the junction of an overshoot trajectory's two concatenated sub-paths. -/
theorem C4_trajectory_timestamps (s e : ℝ × ℝ) (target_size : Option ℝ)
    (uFitts overshootDraw ratio : ℝ) (cpd1 cpd2 : BezierCurve.CPDraws)
    (z1x z1y z2x z2y : ℕ → ℝ) (hu : 0 ≤ uFitts) :
    ((HumanMouseMovement.generate_path s e target_size uFitts overshootDraw
        ratio cpd1 cpd2 z1x z1y z2x z2y).head?).map PathSample.ts = some 0
      ∧ List.Chain' (fun p q => p.ts ≤ q.ts)
        (HumanMouseMovement.generate_path s e target_size uFitts overshootDraw
          ratio cpd1 cpd2 z1x z1y z2x z2y) := by
  have hmt := HumanMouseMovement.plannedMovementTime_nonneg s e target_size
    uFitts hu
  simp only [HumanMouseMovement.generate_path]
  by_cases h : overshootDraw < HumanMouseMovement.overshoot_probability
  · constructor
    · rw [if_pos h]
      exact HumanMouseMovement.overshoot_path_head_ts _ _ _ _ _ _ _ _ _ _
    · rw [if_pos h]
      exact HumanMouseMovement.overshoot_path_chain _ _ _ hmt _ _ _ _ _ _ _
  · constructor
    · rw [if_neg h]
      exact HumanMouseMovement.normal_path_head_ts _ _ _ _ _ _
    · rw [if_neg h]
      exact HumanMouseMovement.normal_path_chain _ _ _ hmt _ _ _

/-- Claim C4 witness: the theorem applied to a concrete movement request with
the overshoot branch forced (`overshootDraw = 0 < 0.10`) and unit Fitts
draw. -/
theorem C4_trajectory_timestamps_witness :
    ((HumanMouseMovement.generate_path (0, 0) (300, 400) none 1 0 1.1
        ⟨0.2, 1, 0.3, 0.7, 0.7, 0.7, 0.7, 0.7⟩
        ⟨0.2, 1, 0.3, 0.7, 0.7, 0.7, 0.7, 0.7⟩
        (fun _ => 0) (fun _ => 0) (fun _ => 0) (fun _ => 0)).head?).map
      PathSample.ts = some 0
      ∧ List.Chain' (fun p q => p.ts ≤ q.ts)
        (HumanMouseMovement.generate_path (0, 0) (300, 400) none 1 0 1.1
          ⟨0.2, 1, 0.3, 0.7, 0.7, 0.7, 0.7, 0.7⟩
          ⟨0.2, 1, 0.3, 0.7, 0.7, 0.7, 0.7, 0.7⟩
          (fun _ => 0) (fun _ => 0) (fun _ => 0) (fun _ => 0)) :=
  C4_trajectory_timestamps (0, 0) (300, 400) none 1 0 1.1
    ⟨0.2, 1, 0.3, 0.7, 0.7, 0.7, 0.7, 0.7⟩
    ⟨0.2, 1, 0.3, 0.7, 0.7, 0.7, 0.7, 0.7⟩
    (fun _ => 0) (fun _ => 0) (fun _ => 0) (fun _ => 0) zero_le_one

/-- Modelled from the spec's words (claim C5): Fitts's formula with the
target width "floored at 1", i.e. `W = max 1 targetWidth`. -/
noncomputable def spec_movement_time (distance target_width u : ℝ) : ℝ :=
  (0 + 150 * Real.logb 2 (distance / max 1 target_width + 1)) * u

/-- Claim C5, counterexample to the claim as stated: at `distance = 1`,
`targetWidth = 1/2`, `u = 1` the code divides by `1/2` itself (the guard only
replaces a non-positive width by 1), giving `150·log2(3)`, while the claimed
"floored at 1" width `max 1 (1/2) = 1` gives `150·log2(2) = 150`. -/
theorem C5_fitts_counterexample :
    FittsLaw.calculate_movement_time 1 (1/2) 1 ≠ spec_movement_time 1 (1/2) 1 := by
  have e1 : FittsLaw.calculate_movement_time 1 (1/2) 1 = 150 * Real.logb 2 3 := by
    unfold FittsLaw.calculate_movement_time
    rw [if_neg (by norm_num)]
    norm_num [FittsLaw.A_CONSTANT, FittsLaw.B_CONSTANT]
  have e2 : spec_movement_time 1 (1/2) 1 = 150 * Real.logb 2 2 := by
    unfold spec_movement_time
    rw [max_eq_left (by norm_num)]
    norm_num
  have h23 : Real.logb 2 2 < Real.logb 2 3 :=
    Real.logb_lt_logb one_lt_two (by norm_num) (by norm_num)
  rw [e1, e2]
  intro h
  linarith

/-- Claim C5 as amended: `calculate_movement_time` returns
`(0 + 150·log2(distance/W + 1))·u` where `W` is `targetWidth` when positive
and `1` only when `targetWidth ≤ 0`; for `distance = 500`,
`targetWidth = 50` the base is `150·log2(11)` and, with the draw `u` in
`[0.8, 1.2]`, every returned value lies within `[0.8×, 1.2×]` of that
base. -/
theorem C5_movement_time_amended (distance target_width u : ℝ)
    (hu1 : 0.8 ≤ u) (hu2 : u ≤ 1.2) :
    FittsLaw.calculate_movement_time distance target_width u
        = (FittsLaw.A_CONSTANT + FittsLaw.B_CONSTANT
            * Real.logb 2 (distance / (if target_width ≤ 0 then 1 else target_width) + 1)) * u
      ∧ FittsLaw.calculate_movement_time 500 50 u = 150 * Real.logb 2 11 * u
      ∧ 0.8 * (150 * Real.logb 2 11) ≤ FittsLaw.calculate_movement_time 500 50 u
      ∧ FittsLaw.calculate_movement_time 500 50 u ≤ 1.2 * (150 * Real.logb 2 11) := by
  have e : FittsLaw.calculate_movement_time 500 50 u = 150 * Real.logb 2 11 * u := by
    unfold FittsLaw.calculate_movement_time
    rw [if_neg (by norm_num)]
    norm_num [FittsLaw.A_CONSTANT, FittsLaw.B_CONSTANT]
  have hB : 0 ≤ Real.logb 2 11 :=
    Real.logb_nonneg one_lt_two (by norm_num)
  refine ⟨rfl, e, ?_, ?_⟩ <;> rw [e] <;>
    nlinarith [mul_nonneg hB (sub_nonneg.mpr hu1), mul_nonneg hB (sub_nonneg.mpr hu2)]

/-- Claim C5 witness: the amended theorem at `u = 1`. -/
theorem C5_movement_time_amended_witness :
    FittsLaw.calculate_movement_time 500 50 1 = 150 * Real.logb 2 11 * 1
      ∧ 0.8 * (150 * Real.logb 2 11) ≤ FittsLaw.calculate_movement_time 500 50 1
      ∧ FittsLaw.calculate_movement_time 500 50 1 ≤ 1.2 * (150 * Real.logb 2 11) :=
  let h := C5_movement_time_amended 500 50 1 (by norm_num) (by norm_num)
  ⟨h.2.1, h.2.2.1, h.2.2.2⟩

/-- Claim C6: with the `random.random()` draw below `p_overshoot = 0.10` the
planner produces the overshoot trajectory — first sub-path from start to the
overshoot point `start + (end − start)·ratio` with 70% of `movementTimeMs`
(its final timestamp is exactly `0.7·movementTimeMs`), corrective sub-path
back to end with the remaining 30%, the corrective sub-path's timestamps
offset by the first sub-path's final timestamp (the dropped junction sample
carries exactly that duplicate timestamp), and one junction sample removed
from the concatenation — and otherwise a single direct trajectory. -/
theorem C6_overshoot_branch_structure (s e : ℝ × ℝ) (target_size : Option ℝ)
    (uFitts overshootDraw ratio : ℝ) (cpd1 cpd2 : BezierCurve.CPDraws)
    (z1x z1y z2x z2y : ℕ → ℝ) :
    (overshootDraw < 0.10 →
      ∃ path1 path2 : List PathSample,
        path1 = HumanMouseMovement._generate_normal_path ⟨s.1, s.2⟩
            (HumanMouseMovement.overshootPoint ⟨s.1, s.2⟩ ⟨e.1, e.2⟩ ratio)
            (HumanMouseMovement.plannedMovementTime s e target_size uFitts * 0.7)
            cpd1 z1x z1y
        ∧ path2 = HumanMouseMovement._generate_normal_path
            (HumanMouseMovement.overshootPoint ⟨s.1, s.2⟩ ⟨e.1, e.2⟩ ratio)
            ⟨e.1, e.2⟩
            (HumanMouseMovement.plannedMovementTime s e target_size uFitts * 0.3)
            cpd2 z2x z2y
        ∧ HumanMouseMovement.overshootPoint ⟨s.1, s.2⟩ ⟨e.1, e.2⟩ ratio
            = ⟨s.1 + (e.1 - s.1) * ratio, s.2 + (e.2 - s.2) * ratio⟩
        ∧ HumanMouseMovement.generate_path s e target_size uFitts overshootDraw
              ratio cpd1 cpd2 z1x z1y z2x z2y
            = path1 ++ (path2.map (fun p =>
                PathSample.mk p.x p.y (p.ts + (path1.getLastD ⟨0, 0, 0⟩).ts))).tail
        ∧ (path1.getLastD ⟨0, 0, 0⟩).ts
            = HumanMouseMovement.plannedMovementTime s e target_size uFitts * 0.7
        ∧ ((path2.map (fun p =>
              PathSample.mk p.x p.y (p.ts + (path1.getLastD ⟨0, 0, 0⟩).ts))).head?).map
            PathSample.ts = some ((path1.getLastD ⟨0, 0, 0⟩).ts)
        ∧ (HumanMouseMovement.generate_path s e target_size uFitts overshootDraw
              ratio cpd1 cpd2 z1x z1y z2x z2y).length
            = path1.length + path2.length - 1)
      ∧ (¬ overshootDraw < 0.10 →
        HumanMouseMovement.generate_path s e target_size uFitts overshootDraw
            ratio cpd1 cpd2 z1x z1y z2x z2y
          = HumanMouseMovement._generate_normal_path ⟨s.1, s.2⟩ ⟨e.1, e.2⟩
              (HumanMouseMovement.plannedMovementTime s e target_size uFitts)
              cpd1 z1x z1y) := by
  constructor
  · intro h
    have hbr : HumanMouseMovement.generate_path s e target_size uFitts
        overshootDraw ratio cpd1 cpd2 z1x z1y z2x z2y
        = HumanMouseMovement._generate_overshoot_path ⟨s.1, s.2⟩ ⟨e.1, e.2⟩
            (HumanMouseMovement.plannedMovementTime s e target_size uFitts)
            ratio cpd1 cpd2 z1x z1y z2x z2y := by
      simp only [HumanMouseMovement.generate_path]
      rw [if_pos (by simpa [HumanMouseMovement.overshoot_probability] using h)]
    refine ⟨_, _, rfl, rfl, rfl, ?_, ?_, ?_, ?_⟩
    · rw [hbr]
      rfl
    · exact HumanMouseMovement.normal_path_getLast_ts _ _ _ _ _ _
    · rw [List.head?_map]
      cases ho : (HumanMouseMovement._generate_normal_path
          (HumanMouseMovement.overshootPoint ⟨s.1, s.2⟩ ⟨e.1, e.2⟩ ratio)
          ⟨e.1, e.2⟩
          (HumanMouseMovement.plannedMovementTime s e target_size uFitts * 0.3)
          cpd2 z2x z2y).head? with
      | none =>
        have h2 := HumanMouseMovement.normal_path_head_ts
          (HumanMouseMovement.overshootPoint ⟨s.1, s.2⟩ ⟨e.1, e.2⟩ ratio)
          ⟨e.1, e.2⟩
          (HumanMouseMovement.plannedMovementTime s e target_size uFitts * 0.3)
          cpd2 z2x z2y
        rw [ho] at h2
        simp at h2
      | some p0 =>
        have h2 := HumanMouseMovement.normal_path_head_ts
          (HumanMouseMovement.overshootPoint ⟨s.1, s.2⟩ ⟨e.1, e.2⟩ ratio)
          ⟨e.1, e.2⟩
          (HumanMouseMovement.plannedMovementTime s e target_size uFitts * 0.3)
          cpd2 z2x z2y
        rw [ho] at h2
        simp only [Option.map_some', Option.some.injEq] at h2
        simp [h2]
    · rw [hbr]
      have h1 := HumanMouseMovement.normal_path_length ⟨s.1, s.2⟩
        (HumanMouseMovement.overshootPoint ⟨s.1, s.2⟩ ⟨e.1, e.2⟩ ratio)
        (HumanMouseMovement.plannedMovementTime s e target_size uFitts * 0.7)
        cpd1 z1x z1y
      have h2 := HumanMouseMovement.normal_path_length
        (HumanMouseMovement.overshootPoint ⟨s.1, s.2⟩ ⟨e.1, e.2⟩ ratio)
        ⟨e.1, e.2⟩
        (HumanMouseMovement.plannedMovementTime s e target_size uFitts * 0.3)
        cpd2 z2x z2y
      show (HumanMouseMovement._generate_overshoot_path _ _ _ _ _ _ _ _ _ _).length = _
      unfold HumanMouseMovement._generate_overshoot_path
      rw [List.length_append, List.length_tail, List.length_map]
      omega
  · intro h
    simp only [HumanMouseMovement.generate_path]
    rw [if_neg (by simpa [HumanMouseMovement.overshoot_probability] using h)]
